import Mathlib

/-!
# Verification of the agentic paper-reviewer orchestration engine

A shallow embedding of `lib/agent_gemini.py`: the LangGraph workflow state,
the per-stage node functions (with the external LLM / search calls modelled
as oracle outcomes), the state-merge semantics, the conditional routers, and
the compiled graph as a small-step relation. Theorems at the end settle the
frozen specification claims against this embedding.
-/

/-- Scoring dimension for paper review (`ReviewDimension` pydantic model). -/
structure ReviewDimension where
  name : String
  score : ℚ
  justification : String
deriving DecidableEq

/-- Related work metadata and summary (`RelatedWork` pydantic model). -/
structure RelatedWork where
  arxiv_id : String
  title : String
  authors : List String
  abstract : String
  relevance_score : ℚ
  summary_type : String
  detailed_summary : Option String
  focus_areas : List String
deriving DecidableEq

/-- Extracted paper metadata (`PaperMetadata` pydantic model). -/
structure PaperMetadata where
  title : String
  authors : List String
  abstract : String
  is_academic_paper : Bool
  venue : Option String
  keywords : List String
deriving DecidableEq

/-- One search query dict: `{query, specificity, perspective}`. -/
structure SearchQuery where
  query : String
  specificity : String
  perspective : String
deriving DecidableEq

/-- One raw arXiv search result dict built in `web_search_node`. -/
structure SearchResult where
  arxiv_id : String
  title : String
  authors : List String
  abstract : String
  query_source : SearchQuery
deriving DecidableEq

/-- Main state for the agentic reviewer workflow (`ReviewerState` TypedDict). -/
structure ReviewerState where
  paper_pdf_path : String
  target_venue : Option String
  paper_markdown : String
  paper_metadata : Option PaperMetadata
  validation_passed : Bool
  search_queries : List SearchQuery
  search_results : List SearchResult
  related_works : List RelatedWork
  selected_related_works : List RelatedWork
  review_sections : List (String × String)
  dimension_scores : List ReviewDimension
  final_score : Option ℚ
  full_review : String
  iteration_count : Nat
  errors : List String
  current_stage : String
  needs_replanning : Bool
deriving DecidableEq

/-- A stage delta: the partial dict a node returns.  A `none` field is absent
from the dict; `errors` carries the entries to concatenate (the `errors`
channel is `Annotated[List[str], operator.add]`). -/
structure StateDelta where
  paper_pdf_path : Option String := none
  target_venue : Option (Option String) := none
  paper_markdown : Option String := none
  paper_metadata : Option (Option PaperMetadata) := none
  validation_passed : Option Bool := none
  search_queries : Option (List SearchQuery) := none
  search_results : Option (List SearchResult) := none
  related_works : Option (List RelatedWork) := none
  selected_related_works : Option (List RelatedWork) := none
  review_sections : Option (List (String × String)) := none
  dimension_scores : Option (List ReviewDimension) := none
  final_score : Option (Option ℚ) := none
  full_review : Option String := none
  iteration_count : Option Nat := none
  errors : List String := []
  current_stage : Option String := none
  needs_replanning : Option Bool := none
deriving DecidableEq

/-- LangGraph channel merge: every field is last-write-wins (a field present
in the delta overwrites the state), except `errors`, whose reducer is
`operator.add`: the delta's entries are concatenated after the existing list. -/
def mergeDelta (s : ReviewerState) (d : StateDelta) : ReviewerState where
  paper_pdf_path := d.paper_pdf_path.getD s.paper_pdf_path
  target_venue := d.target_venue.getD s.target_venue
  paper_markdown := d.paper_markdown.getD s.paper_markdown
  paper_metadata := d.paper_metadata.getD s.paper_metadata
  validation_passed := d.validation_passed.getD s.validation_passed
  search_queries := d.search_queries.getD s.search_queries
  search_results := d.search_results.getD s.search_results
  related_works := d.related_works.getD s.related_works
  selected_related_works := d.selected_related_works.getD s.selected_related_works
  review_sections := d.review_sections.getD s.review_sections
  dimension_scores := d.dimension_scores.getD s.dimension_scores
  final_score := d.final_score.getD s.final_score
  full_review := d.full_review.getD s.full_review
  iteration_count := d.iteration_count.getD s.iteration_count
  errors := s.errors ++ d.errors
  current_stage := d.current_stage.getD s.current_stage
  needs_replanning := d.needs_replanning.getD s.needs_replanning

/-- Regression intercept from ICLR 2025 training (`INTERCEPT = -0.3057`). -/
def INTERCEPT : ℚ := -3057 / 10000

/-- Coefficient `COEF_SOUNDNESS = 0.7134`. -/
def COEF_SOUNDNESS : ℚ := 7134 / 10000

/-- Coefficient `COEF_PRESENTATION = 0.4242`. -/
def COEF_PRESENTATION : ℚ := 4242 / 10000

/-- Coefficient `COEF_CONTRIBUTION = 1.0588`. -/
def COEF_CONTRIBUTION : ℚ := 10588 / 10000

/-- The `scores` dict built in `dimensional_scoring_node` (`Confidence` is
routed to a separate variable, every other dimension is written to the dict,
so a later duplicate name overwrites an earlier one), followed by
`scores.get(name, default)`. -/
def dictGet (dims : List ReviewDimension) (name : String) (default : ℚ) : ℚ :=
  (dims.foldl
    (fun acc d =>
      if d.name = "Confidence" then acc
      else if d.name = name then some d.score else acc)
    none).getD default

/-- The final-score computation inside `dimensional_scoring_node`: if the
dimension list is empty the score is `None`; otherwise the affine regression
formula over the three primary scores (each defaulting to `2.5` when its name
is absent) clamped into `[1, 10]` via `max(1.0, min(10.0, _))`. -/
def computeFinalScore (dimensions : List ReviewDimension) : Option ℚ :=
  if dimensions.isEmpty then none
  else
    let soundness := dictGet dimensions "Soundness" (5 / 2)
    let presentation := dictGet dimensions "Presentation" (5 / 2)
    let contribution := dictGet dimensions "Contribution" (5 / 2)
    let final_score := INTERCEPT + COEF_SOUNDNESS * soundness +
      COEF_PRESENTATION * presentation + COEF_CONTRIBUTION * contribution
    some (max 1 (min 10 final_score))

/-- Outcome of the external part of `pdf_to_markdown_node`: either some
markdown text was produced (covering both the early-return branch and the
extraction branches) or an exception was raised. -/
inductive PdfOutcome where
  | extracted (markdown : String)
  | exception (msg : String)

/-- Node `pdf_to_markdown_node`: on success return the markdown and advance the
stage marker; on exception report `PDF conversion failed`. -/
def pdf_to_markdown_node (_state : ReviewerState) : PdfOutcome → StateDelta
  | .extracted markdown =>
    { paper_markdown := some markdown,
      current_stage := some ("metadata_extraction") }
  | .exception msg =>
    { errors := ["PDF conversion failed: " ++ msg],
      current_stage := some ("failed") }

/-- Outcome of the LLM call in `metadata_extraction_node`: either a parsed
`PaperMetadata` (the JSON branch) or an exception (including the
`Could not parse metadata response` `ValueError`). -/
inductive MetaOutcome where
  | parsed (metadata : PaperMetadata)
  | exception (msg : String)

/-- Node `metadata_extraction_node`: `validation_passed = metadata.is_academic_paper`;
an inacademic document merges an error entry and stage `failed`; an exception
reports `Metadata extraction failed`. -/
def metadata_extraction_node (_state : ReviewerState) : MetaOutcome → StateDelta
  | .parsed metadata =>
    if metadata.is_academic_paper then
      { paper_metadata := some (some metadata),
        validation_passed := some true,
        current_stage := some ("search_query_generation") }
    else
      { paper_metadata := some (some metadata),
        validation_passed := some false,
        errors := ["Document does not appear to be an academic paper"],
        current_stage := some ("failed") }
  | .exception msg =>
    { errors := ["Metadata extraction failed: " ++ msg],
      validation_passed := some false,
      current_stage := some ("failed") }

/-- Outcome of `search_query_generation_node`'s LLM call: a query list (the
JSON branch or the hard-coded fallback queries) or an exception. -/
inductive SqgOutcome where
  | parsed (queries : List SearchQuery)
  | exception (msg : String)

/-- Node `search_query_generation_node`: success stores the queries; an exception
appends `Query generation failed`, stores an empty query list, and still sets
the stage marker to `web_search`. -/
def search_query_generation_node (_state : ReviewerState) : SqgOutcome → StateDelta
  | .parsed queries =>
    { search_queries := some queries,
      current_stage := some ("web_search") }
  | .exception msg =>
    { errors := ["Query generation failed: " ++ msg],
      search_queries := some [],
      current_stage := some ("web_search") }

/-- The dedup-by-identifier loop of `web_search_node`: walk `all_results`
keeping a `seen_ids` accumulator, emitting each result whose `arxiv_id` has
not been seen yet. -/
def dedupAux : List SearchResult → List String → List SearchResult
  | [], _ => []
  | r :: rest, seen_ids =>
    if r.arxiv_id ∈ seen_ids then dedupAux rest seen_ids
    else r :: dedupAux rest (r.arxiv_id :: seen_ids)

/-- The `unique_results` list as computed at the end of `web_search_node` from the
accumulated `all_results`. -/
def dedupByArxivId (all_results : List SearchResult) : List SearchResult :=
  dedupAux all_results []

/-- Outcome of the arXiv queries in `web_search_node`: the accumulated raw
result list (per-query failures merely skip a query) or a top-level
exception. -/
inductive WebOutcome where
  | fetched (all_results : List SearchResult)
  | exception (msg : String)

/-- Node `web_search_node`: success stores the deduplicated results; an exception
appends `Web search failed`, stores an empty result list, and still advances
the stage marker. -/
def web_search_node (_state : ReviewerState) : WebOutcome → StateDelta
  | .fetched all_results =>
    { search_results := some (dedupByArxivId all_results),
      current_stage := some ("relevance_evaluation") }
  | .exception msg =>
    { errors := ["Web search failed: " ++ msg],
      search_results := some [],
      current_stage := some ("relevance_evaluation") }

/-- The per-candidate fields produced by the relevance LLM call (or the
defaults `0.5` / `abstract` / `[]` when its JSON cannot be parsed). -/
structure EvalData where
  relevance_score : ℚ
  summary_type : String
  focus_areas : List String

/-- Build the `RelatedWork` record from one raw result and its evaluation. -/
def toRelatedWork (r : SearchResult) (e : EvalData) : RelatedWork where
  arxiv_id := r.arxiv_id
  title := r.title
  authors := r.authors
  abstract := r.abstract
  relevance_score := e.relevance_score
  summary_type := e.summary_type
  detailed_summary := none
  focus_areas := e.focus_areas

/-- Outcome of `relevance_evaluation_node`: per candidate, either an
evaluation (exception-driven parse failures are already folded into the
default `EvalData` of `0.5` / `abstract`) or `none` when the response held no
JSON object at all, in which case the candidate is silently skipped; or a
top-level exception. -/
inductive RelOutcome where
  | evaluated (evalFn : SearchResult → Option EvalData)
  | exception (msg : String)

/-- Node `relevance_evaluation_node`: evaluate the first 10 search results
(dropping candidates whose response held no JSON object), sort the related
works by relevance descending (Python's stable sort), select the top 7, and
set the stage marker to `summarization`; an exception appends
`Relevance evaluation failed` with empty lists. -/
def relevance_evaluation_node (state : ReviewerState) : RelOutcome → StateDelta
  | .evaluated evalFn =>
    let related_works :=
      (state.search_results.take 10).filterMap
        (fun r => (evalFn r).map (fun e => toRelatedWork r e))
    let sorted :=
      related_works.mergeSort (fun a b => decide (b.relevance_score ≤ a.relevance_score))
    { related_works := some sorted,
      selected_related_works := some (sorted.take 7),
      current_stage := some ("summarization") }
  | .exception msg =>
    { errors := ["Relevance evaluation failed: " ++ msg],
      related_works := some [],
      selected_related_works := some [],
      current_stage := some ("summarization") }

/-- Outcome of `summarization_node`: a detailed-summary text per work that
needs one, or a top-level exception. -/
inductive SummOutcome where
  | summarized (summaryFn : RelatedWork → String)
  | exception (msg : String)

/-- Node `summarization_node`: enrich each selected work whose `summary_type` is
`detailed` and whose focus-area list is non-empty with a detailed summary;
an exception appends `Summarization failed`. -/
def summarization_node (state : ReviewerState) : SummOutcome → StateDelta
  | .summarized summaryFn =>
    let updated_works := state.selected_related_works.map (fun work =>
      if work.summary_type = "detailed" ∧ work.focus_areas ≠ [] then
        { work with detailed_summary := some (summaryFn work) }
      else work)
    { selected_related_works := some updated_works,
      current_stage := some ("review_generation") }
  | .exception msg =>
    { errors := ["Summarization failed: " ++ msg],
      current_stage := some ("review_generation") }

/-- Outcome of the review LLM call in `review_generation_node`. -/
inductive RevOutcome where
  | generated (review : String)
  | exception (msg : String)

/-- Node `review_generation_node`: success stores the full review text; an
exception appends `Review generation failed`. -/
def review_generation_node (_state : ReviewerState) : RevOutcome → StateDelta
  | .generated review =>
    { full_review := some review,
      current_stage := some ("dimensional_scoring") }
  | .exception msg =>
    { errors := ["Review generation failed: " ++ msg],
      current_stage := some ("dimensional_scoring") }

/-- Outcome of the scoring LLM call in `dimensional_scoring_node`: a parsed
dimension list (the unparseable-JSON branch is `parsed []`) or an
exception. -/
inductive ScoreOutcome where
  | parsed (dimensions : List ReviewDimension)
  | exception (msg : String)

/-- Node `dimensional_scoring_node`: store the dimensions and the computed final
score; an exception appends `Scoring failed` with empty dimensions and no
score. Both branches set the stage marker to `complete`. -/
def dimensional_scoring_node (_state : ReviewerState) : ScoreOutcome → StateDelta
  | .parsed dimensions =>
    { dimension_scores := some dimensions,
      final_score := some (computeFinalScore dimensions),
      current_stage := some ("complete") }
  | .exception msg =>
    { errors := ["Scoring failed: " ++ msg],
      dimension_scores := some [],
      final_score := some none,
      current_stage := some ("complete") }

/-- Node `reflection_node`: increment the iteration counter by one and compute the
replanning flag from the two heuristics (empty search results while the stage
marker reads `relevance_evaluation`; fewer than 3 selected works while it
reads `summarization`). -/
def reflection_node (state : ReviewerState) : StateDelta :=
  let iteration := state.iteration_count + 1
  let needs_replanning :=
    (decide (state.search_results = []) &&
      decide (state.current_stage = "relevance_evaluation")) ||
    (decide (state.selected_related_works.length < 3) &&
      decide (state.current_stage = "summarization"))
  { iteration_count := some iteration,
    needs_replanning := some needs_replanning }

/-- Router `route_after_validation`: proceed to query generation when validation
passed, otherwise the `END` sentinel. -/
def route_after_validation (state : ReviewerState) : String :=
  if state.validation_passed then "search_query_generation" else "END"

/-- Router `route_after_reflection`: replan when the replanning flag is set and the
iteration counter (as merged, i.e. already incremented) is below 3. -/
def route_after_reflection (state : ReviewerState) : String :=
  if state.needs_replanning ∧ state.iteration_count < 3 then
    "search_query_generation"
  else "continue"

/-- The nodes of the compiled graph, plus the terminal `END` vertex. -/
inductive Node where
  | pdf_to_markdown
  | metadata_extraction
  | search_query_generation
  | web_search
  | relevance_evaluation
  | summarization
  | review_generation
  | dimensional_scoring
  | reflection
  | graphEnd
deriving DecidableEq

/-- One transition of the compiled workflow graph
(`create_paper_reviewer_graph`): run the node at the current vertex with some
outcome of its external calls, merge its delta, and move along the static
edge — or, after `metadata_extraction` and `reflection`, along the
conditional edge chosen by the router applied to the merged state. -/
inductive Step : Node → ReviewerState → Node → ReviewerState → Prop where
  | pdf_to_markdown (s : ReviewerState) (o : PdfOutcome) :
      Step .pdf_to_markdown s .metadata_extraction
        (mergeDelta s (pdf_to_markdown_node s o))
  | metadata_extraction_pass (s : ReviewerState) (o : MetaOutcome)
      (h : route_after_validation (mergeDelta s (metadata_extraction_node s o)) =
        "search_query_generation") :
      Step .metadata_extraction s .search_query_generation
        (mergeDelta s (metadata_extraction_node s o))
  | metadata_extraction_fail (s : ReviewerState) (o : MetaOutcome)
      (h : route_after_validation (mergeDelta s (metadata_extraction_node s o)) =
        "END") :
      Step .metadata_extraction s .graphEnd
        (mergeDelta s (metadata_extraction_node s o))
  | search_query_generation (s : ReviewerState) (o : SqgOutcome) :
      Step .search_query_generation s .web_search
        (mergeDelta s (search_query_generation_node s o))
  | web_search (s : ReviewerState) (o : WebOutcome) :
      Step .web_search s .relevance_evaluation
        (mergeDelta s (web_search_node s o))
  | relevance_evaluation (s : ReviewerState) (o : RelOutcome) :
      Step .relevance_evaluation s .reflection
        (mergeDelta s (relevance_evaluation_node s o))
  | reflection_replan (s : ReviewerState)
      (h : route_after_reflection (mergeDelta s (reflection_node s)) =
        "search_query_generation") :
      Step .reflection s .search_query_generation
        (mergeDelta s (reflection_node s))
  | reflection_continue (s : ReviewerState)
      (h : route_after_reflection (mergeDelta s (reflection_node s)) =
        "continue") :
      Step .reflection s .summarization
        (mergeDelta s (reflection_node s))
  | summarization (s : ReviewerState) (o : SummOutcome) :
      Step .summarization s .review_generation
        (mergeDelta s (summarization_node s o))
  | review_generation (s : ReviewerState) (o : RevOutcome) :
      Step .review_generation s .dimensional_scoring
        (mergeDelta s (review_generation_node s o))
  | dimensional_scoring (s : ReviewerState) (o : ScoreOutcome) :
      Step .dimensional_scoring s .graphEnd
        (mergeDelta s (dimensional_scoring_node s o))

/-- A run of the workflow: consecutive configurations related by `Step`. -/
def ValidTrace (tr : List (Node × ReviewerState)) : Prop :=
  List.Chain' (fun p q => Step p.1 p.2 q.1 q.2) tr

/-- How many times a trace re-enters query generation through the reflection
gate (transitions from `reflection` to `search_query_generation`). -/
def countReentries : List (Node × ReviewerState) → Nat
  | (n₁, _) :: (n₂, s₂) :: rest =>
    (if n₁ = Node.reflection ∧ n₂ = Node.search_query_generation then 1 else 0) +
      countReentries ((n₂, s₂) :: rest)
  | _ => 0

/-- Position of each node in the linear backbone of the graph. -/
def nodeRank : Node → Nat
  | .pdf_to_markdown => 0
  | .metadata_extraction => 1
  | .search_query_generation => 2
  | .web_search => 3
  | .relevance_evaluation => 4
  | .reflection => 5
  | .summarization => 6
  | .review_generation => 7
  | .dimensional_scoring => 8
  | .graphEnd => 9

/-- Termination measure: distance to the end of the backbone plus five times
the remaining iteration budget. -/
def measureV (n : Node) (s : ReviewerState) : Nat :=
  (9 - nodeRank n) + 5 * (3 - s.iteration_count)

/-- The initial state built by `AgenticPaperReviewer.review_paper` (the empty
string standing for an absent `paper_path`). -/
def initial_state (paper_path : String) (target_venue : Option String)
    (paper_content : String) : ReviewerState where
  paper_pdf_path := paper_path
  target_venue := target_venue
  paper_markdown := paper_content
  paper_metadata := none
  validation_passed := false
  search_queries := []
  search_results := []
  related_works := []
  selected_related_works := []
  review_sections := []
  dimension_scores := []
  final_score := none
  full_review := ""
  iteration_count := 0
  errors := []
  current_stage :=
    if paper_path ≠ "" then "pdf_to_markdown" else "metadata_extraction"
  needs_replanning := false

/-- The nested `paper_metadata` dict of the formatted output. -/
structure OutputPaperMetadata where
  title : String
  authors : List String
  abstract : String
deriving DecidableEq

/-- The nested `scores` dict of the formatted output. -/
structure OutputScores where
  dimensions : List ReviewDimension
  final_score : Option ℚ
deriving DecidableEq

/-- One entry of the `related_works` list of the formatted output. -/
structure OutputRelatedWork where
  title : String
  arxiv_id : String
  relevance : ℚ
deriving DecidableEq

/-- The nested `metadata` dict of the formatted output. -/
structure OutputMeta where
  target_venue : Option String
  iterations : Nat
  errors : List String
deriving DecidableEq

/-- The dict returned by `AgenticPaperReviewer._format_output` (the purely
string-formatting fields `final_score_display` and `url` are not modelled). -/
structure ReviewOutput where
  status : String
  paper_metadata : Option OutputPaperMetadata
  review : String
  scores : OutputScores
  related_works : List OutputRelatedWork
  metadata : OutputMeta
deriving DecidableEq

/-- Method `AgenticPaperReviewer._format_output`: `status` is `complete` exactly when
`full_review` is truthy (a non-empty string), else `failed`; everything else
is copied or projected from the final state. -/
def formatOutput (state : ReviewerState) : ReviewOutput where
  status := if state.full_review ≠ "" then "complete" else "failed"
  paper_metadata := state.paper_metadata.map (fun m =>
    { title := m.title, authors := m.authors, abstract := m.abstract.take 500 })
  review := state.full_review
  scores := { dimensions := state.dimension_scores, final_score := state.final_score }
  related_works := state.selected_related_works.map (fun w =>
    { title := w.title, arxiv_id := w.arxiv_id, relevance := w.relevance_score })
  metadata :=
    { target_venue := state.target_venue, iterations := state.iteration_count,
      errors := state.errors }

/-- A concrete starting state used for witnesses (markdown input, no path). -/
def sampleState : ReviewerState := initial_state ("") none ("sample paper text")

/-- A concrete metadata record judged not to be an academic paper. -/
def invalidMeta : PaperMetadata where
  title := "Shopping list"
  authors := []
  abstract := ""
  is_academic_paper := false
  venue := none
  keywords := []

/-- State after `pdf_to_markdown` in the concrete invalid-document run. -/
def invalidRun₁ : ReviewerState :=
  mergeDelta sampleState (pdf_to_markdown_node sampleState (.extracted ("sample paper text")))

/-- State after `metadata_extraction` judges the document inacademic. -/
def invalidRun₂ : ReviewerState :=
  mergeDelta invalidRun₁ (metadata_extraction_node invalidRun₁ (.parsed invalidMeta))

/-- State after a failing `relevance_evaluation` on the sample run (used to
exercise the reflection gate with zero search results). -/
def reflectInput : ReviewerState :=
  mergeDelta sampleState (relevance_evaluation_node sampleState (.exception ("parse error")))

/-- State after the reflection step on `reflectInput`. -/
def reflectOutput : ReviewerState :=
  mergeDelta reflectInput (reflection_node reflectInput)

/-- State after a failing `search_query_generation` on the sample run. -/
def sqgFailed : ReviewerState :=
  mergeDelta sampleState (search_query_generation_node sampleState (.exception ("boom")))

/-- State after the subsequent `web_search` on the failed-query run. -/
def sqgFailedNext : ReviewerState :=
  mergeDelta sqgFailed (web_search_node sqgFailed (.fetched []))

/-- A concrete delta carrying one error entry, for the merge-algebra witness. -/
def sampleDelta : StateDelta where
  full_review := some ("a review")
  errors := ["some error"]

/-- A concrete search query, for the dedup witness. -/
def sampleQuery : SearchQuery where
  query := "transformers"
  specificity := "high"
  perspective := "method"

/-- A concrete raw search result. -/
def dupResultA : SearchResult where
  arxiv_id := "1706.03762"
  title := "Attention Is All You Need"
  authors := ["Vaswani"]
  abstract := "We propose the Transformer."
  query_source := sampleQuery

/-- A second raw result sharing the identifier of `dupResultA`. -/
def dupResultB : SearchResult where
  arxiv_id := "1706.03762"
  title := "Attention Is All You Need"
  authors := ["Vaswani"]
  abstract := "We propose the Transformer."
  query_source := { sampleQuery with specificity := "low" }

/-- A concrete final state carrying both a review and an error entry, for the
output-status witness. -/
def completedWithErrors : ReviewerState :=
  { sampleState with full_review := "Looks good", errors := ["late failure"] }

/-- Last-write-wins is idempotent on a single optional field. -/
theorem Option.getD_getD_self {α : Type} (o : Option α) (a : α) :
    o.getD (o.getD a) = o.getD a := by
  cases o <;> rfl

/-- Every transition extends the error list by the delta's entries. -/
theorem step_errors_extend {n : Node} {s : ReviewerState} {n' : Node}
    {s' : ReviewerState} (h : Step n s n' s') :
    ∃ new, s'.errors = s.errors ++ new := by
  cases h <;> exact ⟨_, rfl⟩

/-- A transition leaves the iteration counter unchanged unless it executes
the reflection node, which increments it by exactly one. -/
theorem step_iteration {n : Node} {s : ReviewerState} {n' : Node}
    {s' : ReviewerState} (h : Step n s n' s') :
    s'.iteration_count = s.iteration_count ∨
      (n = Node.reflection ∧ s'.iteration_count = s.iteration_count + 1) := by
  cases h with
  | pdf_to_markdown s o =>
    cases o <;> simp [mergeDelta, pdf_to_markdown_node]
  | metadata_extraction_pass s o h =>
    cases o with
    | parsed m =>
      by_cases hm : m.is_academic_paper <;>
        simp [mergeDelta, metadata_extraction_node, hm]
    | exception m => simp [mergeDelta, metadata_extraction_node]
  | metadata_extraction_fail s o h =>
    cases o with
    | parsed m =>
      by_cases hm : m.is_academic_paper <;>
        simp [mergeDelta, metadata_extraction_node, hm]
    | exception m => simp [mergeDelta, metadata_extraction_node]
  | search_query_generation s o =>
    cases o <;> simp [mergeDelta, search_query_generation_node]
  | web_search s o => cases o <;> simp [mergeDelta, web_search_node]
  | relevance_evaluation s o =>
    cases o <;> simp [mergeDelta, relevance_evaluation_node]
  | reflection_replan s h => right; simp [mergeDelta, reflection_node]
  | reflection_continue s h => right; simp [mergeDelta, reflection_node]
  | summarization s o => cases o <;> simp [mergeDelta, summarization_node]
  | review_generation s o =>
    cases o <;> simp [mergeDelta, review_generation_node]
  | dimensional_scoring s o =>
    cases o <;> simp [mergeDelta, dimensional_scoring_node]

/-- The iteration counter never decreases along a transition. -/
theorem step_iteration_mono {n : Node} {s : ReviewerState} {n' : Node}
    {s' : ReviewerState} (h : Step n s n' s') :
    s.iteration_count ≤ s'.iteration_count := by
  rcases step_iteration h with h1 | ⟨_, h1⟩ <;> omega

/-- A replanning transition carries an incremented counter that is still
below the ceiling 3. -/
theorem step_reentry_iter {s s' : ReviewerState}
    (h : Step .reflection s .search_query_generation s') :
    s'.iteration_count = s.iteration_count + 1 ∧ s'.iteration_count < 3 := by
  cases h with
  | reflection_replan s h =>
    rw [route_after_reflection] at h
    split at h
    · next hc =>
      refine ⟨by simp [mergeDelta, reflection_node], hc.2⟩
    · simp at h

/-- No transition leaves the terminal vertex. -/
theorem no_step_from_end {s : ReviewerState} {n : Node} {s' : ReviewerState} :
    ¬ Step .graphEnd s n s' := fun h => nomatch h

/-- The termination measure strictly decreases along every transition. -/
theorem step_measure {n : Node} {s : ReviewerState} {n' : Node}
    {s' : ReviewerState} (h : Step n s n' s') :
    measureV n' s' < measureV n s := by
  cases h with
  | reflection_replan s h =>
    have h2 := step_reentry_iter (Step.reflection_replan s h)
    simp only [measureV, nodeRank]
    omega
  | reflection_continue s h =>
    have h2 : (mergeDelta s (reflection_node s)).iteration_count =
        s.iteration_count + 1 := by simp [mergeDelta, reflection_node]
    simp only [measureV, nodeRank]
    omega
  | pdf_to_markdown s o =>
    have h2 := step_iteration (Step.pdf_to_markdown s o)
    simp only [measureV, nodeRank]
    omega
  | metadata_extraction_pass s o h =>
    have h2 := step_iteration (Step.metadata_extraction_pass s o h)
    simp only [measureV, nodeRank]
    omega
  | metadata_extraction_fail s o h =>
    have h2 := step_iteration (Step.metadata_extraction_fail s o h)
    simp only [measureV, nodeRank]
    omega
  | search_query_generation s o =>
    have h2 := step_iteration (Step.search_query_generation s o)
    simp only [measureV, nodeRank]
    omega
  | web_search s o =>
    have h2 := step_iteration (Step.web_search s o)
    simp only [measureV, nodeRank]
    omega
  | relevance_evaluation s o =>
    have h2 := step_iteration (Step.relevance_evaluation s o)
    simp only [measureV, nodeRank]
    omega
  | summarization s o =>
    have h2 := step_iteration (Step.summarization s o)
    simp only [measureV, nodeRank]
    omega
  | review_generation s o =>
    have h2 := step_iteration (Step.review_generation s o)
    simp only [measureV, nodeRank]
    omega
  | dimensional_scoring s o =>
    have h2 := step_iteration (Step.dimensional_scoring s o)
    simp only [measureV, nodeRank]
    omega

/-- Any run is no longer than the measure of its first configuration plus
one: the workflow terminates. -/
theorem chain_length_le :
    ∀ (tr : List (Node × ReviewerState)), ValidTrace tr →
      ∀ p, tr.head? = some p → tr.length ≤ measureV p.1 p.2 + 1
  | [], _, p, hp => by simp at hp
  | [a], _, p, hp => by
    simp at hp
    subst hp
    simp
  | a :: b :: tl, h, p, hp => by
    have hcons := List.chain'_cons.mp h
    have ih := chain_length_le (b :: tl) hcons.2 b rfl
    have hm := step_measure hcons.1
    simp at hp
    subst hp
    simp only [List.length_cons] at ih ⊢
    omega

/-- Any run re-enters query generation through the reflection gate at most
`3 - c` more times when its first configuration's counter reads `c`. -/
theorem chain_reentries_le :
    ∀ (tr : List (Node × ReviewerState)), ValidTrace tr →
      ∀ n₀ s₀, tr.head? = some (n₀, s₀) →
        countReentries tr ≤ 3 - s₀.iteration_count
  | [], _, _, _, hp => by simp at hp
  | [a], _, _, _, hp => by simp [countReentries]
  | (n₁, s₁) :: (n₂, s₂) :: tl, h, n₀, s₀, hp => by
    have hcons := List.chain'_cons.mp h
    have hstep : Step n₁ s₁ n₂ s₂ := hcons.1
    have ih := chain_reentries_le ((n₂, s₂) :: tl) hcons.2 n₂ s₂ rfl
    simp at hp
    obtain ⟨rfl, rfl⟩ := hp
    simp only [countReentries]
    by_cases hre : n₁ = Node.reflection ∧ n₂ = Node.search_query_generation
    · obtain ⟨rfl, rfl⟩ := hre
      have hfacts := step_reentry_iter hstep
      rw [if_pos ⟨rfl, rfl⟩]
      omega
    · rw [if_neg hre]
      have hmono := step_iteration_mono hstep
      omega

/-- Within a run, the error list of any later configuration extends the
error list of the first configuration. -/
theorem chain_errors_from_head :
    ∀ (k : Nat) (tr : List (Node × ReviewerState)), ValidTrace tr →
      ∀ p, tr.head? = some p → ∀ q, tr[k]? = some q →
        ∃ new, q.2.errors = p.2.errors ++ new
  | 0, tr, _, p, hp, q, hq => by
    cases tr with
    | nil => simp at hp
    | cons a tl =>
      simp at hp hq
      subst hp
      subst hq
      exact ⟨[], by simp⟩
  | (k + 1), tr, h, p, hp, q, hq => by
    cases tr with
    | nil => simp at hp
    | cons a tl =>
      cases tl with
      | nil => simp at hq
      | cons b tl2 =>
        have hcons := List.chain'_cons.mp h
        have ih := chain_errors_from_head k (b :: tl2) hcons.2 b rfl q
          (by simpa using hq)
        obtain ⟨d, hd⟩ := step_errors_extend hcons.1
        obtain ⟨new, hnew⟩ := ih
        simp at hp
        subst hp
        exact ⟨d ++ new, by rw [hnew, hd]; simp⟩

/-- Within a run, the error list of any later configuration extends the
error list of any earlier configuration. -/
theorem chain_errors_le :
    ∀ (i : Nat) (tr : List (Node × ReviewerState)), ValidTrace tr →
      ∀ (j : Nat), i ≤ j → ∀ p q, tr[i]? = some p → tr[j]? = some q →
        ∃ new, q.2.errors = p.2.errors ++ new
  | 0, tr, h, j, _, p, q, hp, hq => by
    have hhead : tr.head? = some p := by
      cases tr with
      | nil => simp at hp
      | cons a tl => simpa using hp
    exact chain_errors_from_head j tr h p hhead q hq
  | (i + 1), tr, h, j, hij, p, q, hp, hq => by
    cases tr with
    | nil => simp at hp
    | cons a tl =>
      cases j with
      | zero => omega
      | succ j2 =>
        exact chain_errors_le i tl (List.Chain'.tail h) j2 (by omega) p q
          (by simpa using hp) (by simpa using hq)

/-- Results emitted by the dedup loop have identifiers outside `seen_ids`. -/
theorem dedupAux_not_seen :
    ∀ (rs : List SearchResult) (seen_ids : List String),
      ∀ u ∈ dedupAux rs seen_ids, u.arxiv_id ∉ seen_ids
  | [], _, u, hu => by simp [dedupAux] at hu
  | r :: rest, seen_ids, u, hu => by
    rw [dedupAux] at hu
    split at hu
    · exact dedupAux_not_seen rest seen_ids u hu
    · next hnot =>
      rcases List.mem_cons.mp hu with rfl | hu2
      · exact hnot
      · have := dedupAux_not_seen rest (r.arxiv_id :: seen_ids) u hu2
        intro hc
        exact this (List.mem_cons_of_mem _ hc)

/-- The dedup loop emits pairwise-distinct identifiers. -/
theorem dedupAux_pairwise :
    ∀ (rs : List SearchResult) (seen_ids : List String),
      (dedupAux rs seen_ids).Pairwise (fun a b => a.arxiv_id ≠ b.arxiv_id)
  | [], _ => by simp [dedupAux]
  | r :: rest, seen_ids => by
    rw [dedupAux]
    split
    · exact dedupAux_pairwise rest seen_ids
    · refine List.Pairwise.cons ?_ (dedupAux_pairwise rest (r.arxiv_id :: seen_ids))
      intro b hb
      have hnot := dedupAux_not_seen rest (r.arxiv_id :: seen_ids) b hb
      intro hc
      exact hnot (by rw [← hc]; exact List.mem_cons_self _ _)

/-- Every identifier of the input survives the dedup loop (or was already
seen). -/
theorem dedupAux_covers :
    ∀ (rs : List SearchResult) (seen_ids : List String) (r : SearchResult),
      r ∈ rs → r.arxiv_id ∈ seen_ids ∨
        ∃ u ∈ dedupAux rs seen_ids, u.arxiv_id = r.arxiv_id
  | [], _, r, hr => by simp at hr
  | r0 :: rest, seen_ids, r, hr => by
    rw [dedupAux]
    rcases List.mem_cons.mp hr with rfl | hr2
    · split
      · next hseen => exact Or.inl hseen
      · exact Or.inr ⟨r, List.mem_cons_self _ _, rfl⟩
    · split
      · next hseen =>
        exact dedupAux_covers rest seen_ids r hr2
      · next hnot =>
        rcases dedupAux_covers rest (r0.arxiv_id :: seen_ids) r hr2 with h | ⟨u, hu, he⟩
        · rcases List.mem_cons.mp h with heq | hseen
          · exact Or.inr ⟨r0, List.mem_cons_self _ _, heq.symm⟩
          · exact Or.inl hseen
        · exact Or.inr ⟨u, List.mem_cons_of_mem _ hu, he⟩

/-- After relevance evaluation (success or failure) the stage marker reads
`summarization`. -/
theorem rel_merge_stage (s : ReviewerState) (o : RelOutcome) :
    (mergeDelta s (relevance_evaluation_node s o)).current_stage =
      "summarization" := by
  cases o <;> simp [mergeDelta, relevance_evaluation_node]

/-- After relevance evaluation, an empty search-result list forces an empty
selected-related-works list. -/
theorem rel_merge_results (s : ReviewerState) (o : RelOutcome) :
    (mergeDelta s (relevance_evaluation_node s o)).search_results = [] →
      (mergeDelta s (relevance_evaluation_node s o)).selected_related_works = [] := by
  cases o with
  | evaluated evalFn =>
    intro h
    simp only [mergeDelta, relevance_evaluation_node, Option.getD_some,
      Option.getD_none] at h ⊢
    rw [h]
    simp
  | exception msg =>
    intro _
    simp [mergeDelta, relevance_evaluation_node]

/-- Reflection increments the merged iteration counter by exactly one. -/
theorem reflection_merge_iter (s : ReviewerState) :
    (mergeDelta s (reflection_node s)).iteration_count =
      s.iteration_count + 1 := rfl

/-- The merged replanning flag computed by reflection. -/
theorem reflection_merge_needs (s : ReviewerState) :
    (mergeDelta s (reflection_node s)).needs_replanning =
      ((decide (s.search_results = []) &&
        decide (s.current_stage = "relevance_evaluation")) ||
       (decide (s.selected_related_works.length < 3) &&
        decide (s.current_stage = "summarization"))) := rfl

/-- Reflection does not touch the search results, the selection, or the
stage marker. -/
theorem reflection_merge_same (s : ReviewerState) :
    (mergeDelta s (reflection_node s)).search_results = s.search_results ∧
    (mergeDelta s (reflection_node s)).selected_related_works =
      s.selected_related_works ∧
    (mergeDelta s (reflection_node s)).current_stage = s.current_stage :=
  ⟨rfl, rfl, rfl⟩

/-- C1: after the relevance-evaluation stage, the reflection step routes back
to query generation if and only if the search-result list is empty or fewer
than 3 related works are selected, and the iteration counter (as read by the
router, i.e. after the reflection increment) is below 3; in every other case
the workflow proceeds to summarization. -/
theorem reflection_gate_iff (s s₁ s₂ : ReviewerState) (n : Node)
    (h₁ : Step .relevance_evaluation s .reflection s₁)
    (h₂ : Step .reflection s₁ n s₂) :
    (n = Node.search_query_generation ↔
      ((s₁.search_results = [] ∨ s₁.selected_related_works.length < 3) ∧
        s₂.iteration_count < 3)) ∧
    (n = Node.summarization ↔
      ¬ ((s₁.search_results = [] ∨ s₁.selected_related_works.length < 3) ∧
        s₂.iteration_count < 3)) := by
  have hstage : s₁.current_stage = "summarization" := by
    cases h₁ with
    | relevance_evaluation s o => exact rel_merge_stage s o
  have hemp : s₁.search_results = [] → s₁.selected_related_works = [] := by
    cases h₁ with
    | relevance_evaluation s o => exact rel_merge_results s o
  cases h₂ with
  | reflection_replan _ h =>
    rw [route_after_reflection] at h
    split at h
    · next hc =>
      have hlen : s₁.selected_related_works.length < 3 := by
        have hneeds := hc.1
        rw [reflection_merge_needs, hstage] at hneeds
        simpa using hneeds
      have hcond : (s₁.search_results = [] ∨
          s₁.selected_related_works.length < 3) ∧
          (mergeDelta s₁ (reflection_node s₁)).iteration_count < 3 :=
        ⟨Or.inr hlen, hc.2⟩
      exact ⟨⟨fun _ => hcond, fun _ => rfl⟩,
        ⟨fun hsum => absurd hsum (by decide), fun hn => (hn hcond).elim⟩⟩
    · exact absurd h (by decide)
  | reflection_continue _ h =>
    rw [route_after_reflection] at h
    split at h
    · exact absurd h (by decide)
    · next hc =>
      have hncond : ¬ ((s₁.search_results = [] ∨
          s₁.selected_related_works.length < 3) ∧
          (mergeDelta s₁ (reflection_node s₁)).iteration_count < 3) := by
        rintro ⟨hor, hlt⟩
        have hlen : s₁.selected_related_works.length < 3 := by
          rcases hor with hres | hlen2
          · rw [hemp hres]
            simp
          · exact hlen2
        refine hc ⟨?_, hlt⟩
        rw [reflection_merge_needs, hstage]
        simpa using hlen
      exact ⟨⟨fun hsq => absurd hsq (by decide), fun hcd => (hncond hcd).elim⟩,
        ⟨fun _ => hncond, fun _ => rfl⟩⟩

/-- Witness for C1 at a concrete run: a failing relevance evaluation with no
search results and iteration counter 0 routes back to query generation. -/
theorem reflection_gate_iff_witness :
    (Node.search_query_generation = Node.search_query_generation ↔
      ((reflectInput.search_results = [] ∨
        reflectInput.selected_related_works.length < 3) ∧
        reflectOutput.iteration_count < 3)) ∧
    (Node.search_query_generation = Node.summarization ↔
      ¬ ((reflectInput.search_results = [] ∨
        reflectInput.selected_related_works.length < 3) ∧
        reflectOutput.iteration_count < 3)) :=
  reflection_gate_iff sampleState reflectInput reflectOutput
    Node.search_query_generation
    (Step.relevance_evaluation sampleState (RelOutcome.exception ("parse error")))
    (Step.reflection_replan reflectInput (by decide))

/-- C2: every execution of the reflection step increments the iteration
counter by exactly one; no transition ever decreases the counter; a run
starting with counter 0 re-enters query generation through the reflection
gate at most 3 times; and every run is finite (at most 25 configurations),
so the replanning loop terminates. -/
theorem iteration_counter_bound :
    (∀ (s : ReviewerState) (n' : Node) (s' : ReviewerState),
        Step .reflection s n' s' →
          s'.iteration_count = s.iteration_count + 1) ∧
    (∀ (n : Node) (s : ReviewerState) (n' : Node) (s' : ReviewerState),
        Step n s n' s' → s.iteration_count ≤ s'.iteration_count) ∧
    (∀ tr, ValidTrace tr → ∀ n₀ s₀, tr.head? = some (n₀, s₀) →
        s₀.iteration_count = 0 → countReentries tr ≤ 3) ∧
    (∀ tr, ValidTrace tr → ∀ p, tr.head? = some p → tr.length ≤ 25) := by
  refine ⟨?_, ?_, ?_, ?_⟩
  · intro s n' s' h
    cases h with
    | reflection_replan _ _ => exact reflection_merge_iter s
    | reflection_continue _ _ => exact reflection_merge_iter s
  · intro n s n' s' h
    exact step_iteration_mono h
  · intro tr htr n₀ s₀ hhead hzero
    have := chain_reentries_le tr htr n₀ s₀ hhead
    omega
  · intro tr htr p hhead
    have h1 := chain_length_le tr htr p hhead
    have h2 : measureV p.1 p.2 ≤ 24 := by
      simp only [measureV]
      omega
    omega

/-- Witness for C2 at a concrete run: the reflection transition out of
`reflectInput` increments the counter from 0 to 1, and the two-configuration
replanning trace satisfies the bounds. -/
theorem iteration_counter_bound_witness :
    reflectOutput.iteration_count = reflectInput.iteration_count + 1 ∧
    reflectInput.iteration_count ≤ reflectOutput.iteration_count ∧
    countReentries [(Node.reflection, reflectInput),
      (Node.search_query_generation, reflectOutput)] ≤ 3 ∧
    ([(Node.reflection, reflectInput),
      (Node.search_query_generation, reflectOutput)] :
      List (Node × ReviewerState)).length ≤ 25 := by
  have hstep : Step .reflection reflectInput .search_query_generation
      reflectOutput :=
    Step.reflection_replan reflectInput (by decide)
  have htr : ValidTrace [(Node.reflection, reflectInput),
      (Node.search_query_generation, reflectOutput)] :=
    List.chain'_cons.mpr ⟨hstep, List.chain'_singleton _⟩
  exact ⟨iteration_counter_bound.1 reflectInput _ _ hstep,
    iteration_counter_bound.2.1 _ reflectInput _ _ hstep,
    iteration_counter_bound.2.2.1 _ htr _ _ rfl (by decide),
    iteration_counter_bound.2.2.2 _ htr _ rfl⟩

/-- Counterexample to C3: on a concrete run whose document is judged not an
academic paper (`is_academic_paper = false`), the metadata-extraction node
does append an entry to the error list — the claim that the workflow
terminates with no error entry is false on the code. -/
theorem validation_clean_counterexample :
    invalidMeta.is_academic_paper = false ∧
    invalidRun₂.errors ≠ [] ∧
    invalidRun₂.errors = ["Document does not appear to be an academic paper"] ∧
    invalidRun₂.validation_passed = false := by
  refine ⟨rfl, ?_, rfl, rfl⟩
  decide

/-- C3 as amended: when the metadata-extraction stage judges the document
not a valid subject, the workflow terminates (the validation router sends it
to the terminal vertex, which has no outgoing transition), but with the fixed
message `Document does not appear to be an academic paper` appended to the
error list and the stage marker set to `failed`. -/
theorem validation_gate_amended (s : ReviewerState) (md : PaperMetadata) :
    Step .metadata_extraction s .graphEnd
      (mergeDelta s (metadata_extraction_node s
        (.parsed { md with is_academic_paper := false }))) ∧
    (mergeDelta s (metadata_extraction_node s
        (.parsed { md with is_academic_paper := false }))).errors =
      s.errors ++ ["Document does not appear to be an academic paper"] ∧
    (mergeDelta s (metadata_extraction_node s
        (.parsed { md with is_academic_paper := false }))).current_stage =
      "failed" ∧
    (mergeDelta s (metadata_extraction_node s
        (.parsed { md with is_academic_paper := false }))).validation_passed =
      false ∧
    ∀ (n₂ : Node) (s₂ : ReviewerState),
      ¬ Step .graphEnd (mergeDelta s (metadata_extraction_node s
        (.parsed { md with is_academic_paper := false }))) n₂ s₂ := by
  refine ⟨?_, ?_, ?_, ?_, fun n₂ s₂ => no_step_from_end⟩
  · refine Step.metadata_extraction_fail s _ ?_
    simp [route_after_validation, mergeDelta, metadata_extraction_node]
  · simp [mergeDelta, metadata_extraction_node]
  · simp [mergeDelta, metadata_extraction_node]
  · simp [mergeDelta, metadata_extraction_node]

/-- Witness for the amended C3 at a concrete input. -/
theorem validation_gate_amended_witness :
    Step .metadata_extraction invalidRun₁ .graphEnd invalidRun₂ ∧
    invalidRun₂.errors =
      invalidRun₁.errors ++ ["Document does not appear to be an academic paper"] ∧
    invalidRun₂.current_stage = "failed" := by
  have h := validation_gate_amended invalidRun₁ invalidMeta
  exact ⟨h.1, h.2.1, h.2.2.1⟩

/-- Counterexample to C4: on a concrete run, a failing query-generation
stage appends its failure message yet the workflow transitions to the
web-search stage, which then executes a further transition — the run does
not immediately terminate after a stage fault. -/
theorem stage_fault_counterexample :
    Step .search_query_generation sampleState .web_search sqgFailed ∧
    sqgFailed.errors = ["Query generation failed: boom"] ∧
    Step .web_search sqgFailed .relevance_evaluation sqgFailedNext :=
  ⟨Step.search_query_generation sampleState (SqgOutcome.exception ("boom")),
    rfl,
    Step.web_search sqgFailed (WebOutcome.fetched [])⟩

/-- C4 as amended: when a stage fails, its failure message is appended to
the error list, but the run does not necessarily terminate: a
metadata-extraction failure routes to the terminal vertex via the validation
gate, and dimensional scoring is the last stage anyway, but every other
failing stage transitions to its static successor, which still executes. -/
theorem stage_fault_amended (s : ReviewerState) (msg : String) :
    (Step .pdf_to_markdown s .metadata_extraction
        (mergeDelta s (pdf_to_markdown_node s (.exception msg))) ∧
      (mergeDelta s (pdf_to_markdown_node s (.exception msg))).errors =
        s.errors ++ ["PDF conversion failed: " ++ msg]) ∧
    (Step .metadata_extraction s .graphEnd
        (mergeDelta s (metadata_extraction_node s (.exception msg))) ∧
      (mergeDelta s (metadata_extraction_node s (.exception msg))).errors =
        s.errors ++ ["Metadata extraction failed: " ++ msg]) ∧
    (Step .search_query_generation s .web_search
        (mergeDelta s (search_query_generation_node s (.exception msg))) ∧
      (mergeDelta s (search_query_generation_node s (.exception msg))).errors =
        s.errors ++ ["Query generation failed: " ++ msg]) ∧
    (Step .web_search s .relevance_evaluation
        (mergeDelta s (web_search_node s (.exception msg))) ∧
      (mergeDelta s (web_search_node s (.exception msg))).errors =
        s.errors ++ ["Web search failed: " ++ msg]) ∧
    (Step .relevance_evaluation s .reflection
        (mergeDelta s (relevance_evaluation_node s (.exception msg))) ∧
      (mergeDelta s (relevance_evaluation_node s (.exception msg))).errors =
        s.errors ++ ["Relevance evaluation failed: " ++ msg]) ∧
    (Step .summarization s .review_generation
        (mergeDelta s (summarization_node s (.exception msg))) ∧
      (mergeDelta s (summarization_node s (.exception msg))).errors =
        s.errors ++ ["Summarization failed: " ++ msg]) ∧
    (Step .review_generation s .dimensional_scoring
        (mergeDelta s (review_generation_node s (.exception msg))) ∧
      (mergeDelta s (review_generation_node s (.exception msg))).errors =
        s.errors ++ ["Review generation failed: " ++ msg]) ∧
    (Step .dimensional_scoring s .graphEnd
        (mergeDelta s (dimensional_scoring_node s (.exception msg))) ∧
      (mergeDelta s (dimensional_scoring_node s (.exception msg))).errors =
        s.errors ++ ["Scoring failed: " ++ msg]) := by
  refine ⟨⟨Step.pdf_to_markdown s _, rfl⟩,
    ⟨Step.metadata_extraction_fail s _ ?_, rfl⟩,
    ⟨Step.search_query_generation s _, rfl⟩,
    ⟨Step.web_search s _, rfl⟩,
    ⟨Step.relevance_evaluation s _, rfl⟩,
    ⟨Step.summarization s _, rfl⟩,
    ⟨Step.review_generation s _, rfl⟩,
    ⟨Step.dimensional_scoring s _, rfl⟩⟩
  simp [route_after_validation, mergeDelta, metadata_extraction_node]

/-- Folding the scores dict over dimensions none of which carries the looked
up name leaves the accumulator unchanged. -/
theorem foldl_scores_absent (name : String) :
    ∀ (dims : List ReviewDimension) (acc : Option ℚ),
      (∀ d ∈ dims, d.name ≠ name) →
      dims.foldl
        (fun acc d =>
          if d.name = "Confidence" then acc
          else if d.name = name then some d.score else acc)
        acc = acc
  | [], _, _ => rfl
  | d :: rest, acc, h => by
    have hd : d.name ≠ name := h d (List.mem_cons_self _ _)
    have hrest : ∀ e ∈ rest, e.name ≠ name :=
      fun e he => h e (List.mem_cons_of_mem _ he)
    rw [List.foldl_cons]
    by_cases hc : d.name = "Confidence"
    · rw [if_pos hc]
      exact foldl_scores_absent name rest acc hrest
    · rw [if_neg hc, if_neg hd]
      exact foldl_scores_absent name rest acc hrest

/-- A dimension name absent from the list is scored by the default. -/
theorem dictGet_absent (dims : List ReviewDimension) (name : String)
    (default : ℚ) (h : ∀ d ∈ dims, d.name ≠ name) :
    dictGet dims name default = default := by
  rw [dictGet, foldl_scores_absent name dims none h]
  rfl

/-- C5: the final score is a pure function of the three primary dimension
scores — the affine regression formula with intercept `-0.3057` and
coefficients `0.7134`, `0.4242`, `1.0588`, clamped into `[1, 10]`; for
soundness = presentation = contribution = 3 it equals `6.2835`; and a
dimension absent from a non-empty list is replaced by the neutral default
`2.5` rather than failing. -/
theorem final_score_spec :
    (∀ dims : List ReviewDimension, dims ≠ [] →
      computeFinalScore dims =
        some (max 1 (min 10 (INTERCEPT +
          COEF_SOUNDNESS * dictGet dims "Soundness" (5 / 2) +
          COEF_PRESENTATION * dictGet dims "Presentation" (5 / 2) +
          COEF_CONTRIBUTION * dictGet dims "Contribution" (5 / 2))))) ∧
    computeFinalScore
      [{ name := "Soundness", score := 3, justification := "j" },
       { name := "Presentation", score := 3, justification := "j" },
       { name := "Contribution", score := 3, justification := "j" }] =
      some (62835 / 10000) ∧
    computeFinalScore
      [{ name := "Presentation", score := 3, justification := "j" },
       { name := "Contribution", score := 3, justification := "j" }] =
      some (INTERCEPT + COEF_SOUNDNESS * (5 / 2) +
        COEF_PRESENTATION * 3 + COEF_CONTRIBUTION * 3) ∧
    (∀ dims : List ReviewDimension, (∀ d ∈ dims, d.name ≠ "Soundness") →
      dictGet dims "Soundness" (5 / 2) = 5 / 2) := by
  refine ⟨?_, ?_, ?_, fun dims h => dictGet_absent dims _ _ h⟩
  · intro dims h
    rw [computeFinalScore, if_neg (by simpa using h)]
  · simp [computeFinalScore, dictGet, INTERCEPT, COEF_SOUNDNESS,
      COEF_PRESENTATION, COEF_CONTRIBUTION]
    rw [min_eq_right (by norm_num), max_eq_right (by norm_num)]
    norm_num
  · simp [computeFinalScore, dictGet, INTERCEPT, COEF_SOUNDNESS,
      COEF_PRESENTATION, COEF_CONTRIBUTION]
    rw [min_eq_right (by norm_num), max_eq_right (by norm_num)]

/-- Witness for C5 at concrete inputs: the formula shape on the all-3 list,
and the default substitution on a list missing `Soundness`. -/
theorem final_score_spec_witness :
    computeFinalScore
      [{ name := "Soundness", score := 3, justification := "j" },
       { name := "Presentation", score := 3, justification := "j" },
       { name := "Contribution", score := 3, justification := "j" }] =
      some (max 1 (min 10 (INTERCEPT +
        COEF_SOUNDNESS * dictGet
          [{ name := "Soundness", score := 3, justification := "j" },
           { name := "Presentation", score := 3, justification := "j" },
           { name := "Contribution", score := 3, justification := "j" }]
          "Soundness" (5 / 2) +
        COEF_PRESENTATION * dictGet
          [{ name := "Soundness", score := 3, justification := "j" },
           { name := "Presentation", score := 3, justification := "j" },
           { name := "Contribution", score := 3, justification := "j" }]
          "Presentation" (5 / 2) +
        COEF_CONTRIBUTION * dictGet
          [{ name := "Soundness", score := 3, justification := "j" },
           { name := "Presentation", score := 3, justification := "j" },
           { name := "Contribution", score := 3, justification := "j" }]
          "Contribution" (5 / 2)))) ∧
    dictGet [{ name := "Presentation", score := 3, justification := "j" }]
      "Soundness" (5 / 2) = 5 / 2 :=
  ⟨final_score_spec.1 _ (by simp),
    final_score_spec.2.2.2 _ (by simp)⟩

/-- C6: the error list is append-only — one merge concatenates the delta's
entries at the end, every transition extends the list without removing or
reordering existing entries, and across a whole run every later
configuration's error list extends every earlier one's, so its length is
monotonically non-decreasing. -/
theorem errors_append_only :
    (∀ (s : ReviewerState) (d : StateDelta),
        (mergeDelta s d).errors = s.errors ++ d.errors) ∧
    (∀ (n : Node) (s : ReviewerState) (n' : Node) (s' : ReviewerState),
        Step n s n' s' →
          ∃ new, s'.errors = s.errors ++ new ∧
            s.errors.length ≤ s'.errors.length) ∧
    (∀ tr, ValidTrace tr → ∀ (i j : Nat), i ≤ j →
        ∀ p q, tr[i]? = some p → tr[j]? = some q →
          ∃ new, q.2.errors = p.2.errors ++ new ∧
            p.2.errors.length ≤ q.2.errors.length) := by
  refine ⟨fun s d => rfl, ?_, ?_⟩
  · intro n s n' s' h
    obtain ⟨new, hnew⟩ := step_errors_extend h
    exact ⟨new, hnew, by simp [hnew]⟩
  · intro tr htr i j hij p q hp hq
    obtain ⟨new, hnew⟩ := chain_errors_le i tr htr j hij p q hp hq
    exact ⟨new, hnew, by simp [hnew]⟩

/-- Witness for C6 at concrete inputs: a single merge with one error entry,
a concrete transition, and the two-configuration replanning trace. -/
theorem errors_append_only_witness :
    (mergeDelta sampleState sampleDelta).errors =
      sampleState.errors ++ sampleDelta.errors ∧
    (∃ new, sqgFailed.errors = sampleState.errors ++ new ∧
      sampleState.errors.length ≤ sqgFailed.errors.length) ∧
    (∃ new, reflectOutput.errors = reflectInput.errors ++ new ∧
      reflectInput.errors.length ≤ reflectOutput.errors.length) := by
  have hstep : Step .reflection reflectInput .search_query_generation
      reflectOutput :=
    Step.reflection_replan reflectInput (by decide)
  have htr : ValidTrace [(Node.reflection, reflectInput),
      (Node.search_query_generation, reflectOutput)] :=
    List.chain'_cons.mpr ⟨hstep, List.chain'_singleton _⟩
  refine ⟨errors_append_only.1 sampleState sampleDelta, ?_, ?_⟩
  · exact errors_append_only.2.1 _ sampleState _ _
      (Step.search_query_generation sampleState (SqgOutcome.exception ("boom")))
  · exact errors_append_only.2.2 _ htr 0 1 (by omega) _ _ rfl rfl

/-- C7: merging the identical delta twice yields the same value as merging
it once on every field except the error list, whose entries are appended a
second time — so the merge is not idempotent on the error list whenever the
delta carries at least one entry. -/
theorem merge_idempotent_except_errors (s : ReviewerState) (d : StateDelta) :
    (mergeDelta (mergeDelta s d) d).paper_pdf_path =
      (mergeDelta s d).paper_pdf_path ∧
    (mergeDelta (mergeDelta s d) d).target_venue =
      (mergeDelta s d).target_venue ∧
    (mergeDelta (mergeDelta s d) d).paper_markdown =
      (mergeDelta s d).paper_markdown ∧
    (mergeDelta (mergeDelta s d) d).paper_metadata =
      (mergeDelta s d).paper_metadata ∧
    (mergeDelta (mergeDelta s d) d).validation_passed =
      (mergeDelta s d).validation_passed ∧
    (mergeDelta (mergeDelta s d) d).search_queries =
      (mergeDelta s d).search_queries ∧
    (mergeDelta (mergeDelta s d) d).search_results =
      (mergeDelta s d).search_results ∧
    (mergeDelta (mergeDelta s d) d).related_works =
      (mergeDelta s d).related_works ∧
    (mergeDelta (mergeDelta s d) d).selected_related_works =
      (mergeDelta s d).selected_related_works ∧
    (mergeDelta (mergeDelta s d) d).review_sections =
      (mergeDelta s d).review_sections ∧
    (mergeDelta (mergeDelta s d) d).dimension_scores =
      (mergeDelta s d).dimension_scores ∧
    (mergeDelta (mergeDelta s d) d).final_score =
      (mergeDelta s d).final_score ∧
    (mergeDelta (mergeDelta s d) d).full_review =
      (mergeDelta s d).full_review ∧
    (mergeDelta (mergeDelta s d) d).iteration_count =
      (mergeDelta s d).iteration_count ∧
    (mergeDelta (mergeDelta s d) d).current_stage =
      (mergeDelta s d).current_stage ∧
    (mergeDelta (mergeDelta s d) d).needs_replanning =
      (mergeDelta s d).needs_replanning ∧
    (mergeDelta (mergeDelta s d) d).errors = s.errors ++ d.errors ++ d.errors ∧
    (d.errors ≠ [] → mergeDelta (mergeDelta s d) d ≠ mergeDelta s d) := by
  refine ⟨Option.getD_getD_self _ _, Option.getD_getD_self _ _,
    Option.getD_getD_self _ _, Option.getD_getD_self _ _,
    Option.getD_getD_self _ _, Option.getD_getD_self _ _,
    Option.getD_getD_self _ _, Option.getD_getD_self _ _,
    Option.getD_getD_self _ _, Option.getD_getD_self _ _,
    Option.getD_getD_self _ _, Option.getD_getD_self _ _,
    Option.getD_getD_self _ _, Option.getD_getD_self _ _,
    Option.getD_getD_self _ _, Option.getD_getD_self _ _,
    rfl, ?_⟩
  intro hne heq
  have h1 : s.errors ++ d.errors ++ d.errors = s.errors ++ d.errors :=
    congrArg ReviewerState.errors heq
  have h2 := congrArg List.length h1
  simp only [List.length_append] at h2
  have h3 : 0 < d.errors.length := List.length_pos.mpr hne
  omega

/-- Witness for C7 at a concrete state and delta carrying one error entry. -/
theorem merge_idempotent_except_errors_witness :
    (mergeDelta (mergeDelta sampleState sampleDelta) sampleDelta).full_review =
      (mergeDelta sampleState sampleDelta).full_review ∧
    (mergeDelta (mergeDelta sampleState sampleDelta) sampleDelta).errors =
      sampleState.errors ++ sampleDelta.errors ++ sampleDelta.errors ∧
    mergeDelta (mergeDelta sampleState sampleDelta) sampleDelta ≠
      mergeDelta sampleState sampleDelta := by
  have h := merge_idempotent_except_errors sampleState sampleDelta
  exact ⟨h.2.2.2.2.2.2.2.2.2.2.2.2.1,
    h.2.2.2.2.2.2.2.2.2.2.2.2.2.2.2.2.1,
    h.2.2.2.2.2.2.2.2.2.2.2.2.2.2.2.2.2 (by decide)⟩

/-- C8: the web-search stage's merge deduplicates by the external
identifier — the merged list carries pairwise-distinct `arxiv_id`s, and every
identifier of the raw per-query results still appears in the merged list. -/
theorem web_search_dedup (s : ReviewerState)
    (all_results : List SearchResult) :
    (web_search_node s (.fetched all_results)).search_results =
      some (dedupByArxivId all_results) ∧
    (dedupByArxivId all_results).Pairwise
      (fun a b => a.arxiv_id ≠ b.arxiv_id) ∧
    (∀ r ∈ all_results,
      ∃ u ∈ dedupByArxivId all_results, u.arxiv_id = r.arxiv_id) := by
  refine ⟨rfl, dedupAux_pairwise all_results [], fun r hr => ?_⟩
  rcases dedupAux_covers all_results [] r hr with h | h
  · exact absurd h (List.not_mem_nil _)
  · exact h

/-- Witness for C8 at a concrete input: two raw results sharing an
identifier collapse to one merged entry that still covers both. -/
theorem web_search_dedup_witness :
    dedupByArxivId [dupResultA, dupResultB] = [dupResultA] ∧
    (∃ u ∈ dedupByArxivId [dupResultA, dupResultB],
      u.arxiv_id = dupResultB.arxiv_id) := by
  refine ⟨by decide, ?_⟩
  exact (web_search_dedup sampleState [dupResultA, dupResultB]).2.2 dupResultB
    (by simp)

/-- C9: a run whose document fails the validation gate (the state merged
after metadata extraction has `validation_passed = false`) goes straight to
the terminal vertex: the trace has exactly the three configurations
pdf-to-markdown, metadata-extraction, terminal, and never contains the
query-generation, web-search, summarization, review-generation, or scoring
stages. -/
theorem validation_failure_isolation (tr : List (Node × ReviewerState))
    (s₀ : ReviewerState) (htr : ValidTrace tr)
    (hhead : tr.head? = some (Node.pdf_to_markdown, s₀))
    (n₂ : Node) (s₂ : ReviewerState) (h2 : tr[2]? = some (n₂, s₂))
    (hval : s₂.validation_passed = false) :
    n₂ = Node.graphEnd ∧ tr.length = 3 ∧
    ∀ x ∈ tr, x.1 ≠ Node.search_query_generation ∧ x.1 ≠ Node.web_search ∧
      x.1 ≠ Node.summarization ∧ x.1 ≠ Node.review_generation ∧
      x.1 ≠ Node.dimensional_scoring := by
  rcases tr with _ | ⟨⟨a₀, b₀⟩, _ | ⟨⟨a₁, b₁⟩, _ | ⟨⟨a₂, b₂⟩, tl⟩⟩⟩
  · simp at hhead
  · simp at h2
  · simp at h2
  · have hhead2 : a₀ = Node.pdf_to_markdown ∧ b₀ = s₀ := by
      simpa using hhead
    obtain ⟨rfl, rfl⟩ := hhead2
    have h22 : a₂ = n₂ ∧ b₂ = s₂ := by
      simpa using h2
    obtain ⟨rfl, rfl⟩ := h22
    have hc1 := List.chain'_cons.mp htr
    have hstep1 : Step Node.pdf_to_markdown b₀ a₁ b₁ := hc1.1
    have hc2 := List.chain'_cons.mp hc1.2
    have hstep2 : Step a₁ b₁ a₂ b₂ := hc2.1
    have ha₁ : a₁ = Node.metadata_extraction := by
      cases hstep1 with
      | pdf_to_markdown _ _ => rfl
    subst ha₁
    have hend : a₂ = Node.graphEnd := by
      cases hstep2 with
      | metadata_extraction_pass _ o h =>
        rw [route_after_validation] at h
        rw [if_neg] at h
        · exact absurd h (by decide)
        · simp [hval]
      | metadata_extraction_fail _ o h => rfl
    subst hend
    have htl : tl = [] := by
      cases tl with
      | nil => rfl
      | cons c tl2 =>
        have hc3 := List.chain'_cons.mp hc2.2
        exact absurd hc3.1 no_step_from_end
    subst htl
    refine ⟨rfl, rfl, ?_⟩
    intro x hx
    simp only [List.mem_cons, List.not_mem_nil, or_false] at hx
    rcases hx with rfl | rfl | rfl
    · exact ⟨by simp, by simp, by simp, by simp, by simp⟩
    · exact ⟨by simp, by simp, by simp, by simp, by simp⟩
    · exact ⟨by simp, by simp, by simp, by simp, by simp⟩

/-- Witness for C9 on the concrete invalid-document run. -/
theorem validation_failure_isolation_witness :
    Node.graphEnd = Node.graphEnd ∧
    ([(Node.pdf_to_markdown, sampleState),
      (Node.metadata_extraction, invalidRun₁),
      (Node.graphEnd, invalidRun₂)] :
      List (Node × ReviewerState)).length = 3 ∧
    ∀ x ∈ ([(Node.pdf_to_markdown, sampleState),
      (Node.metadata_extraction, invalidRun₁),
      (Node.graphEnd, invalidRun₂)] : List (Node × ReviewerState)),
      x.1 ≠ Node.search_query_generation ∧ x.1 ≠ Node.web_search ∧
      x.1 ≠ Node.summarization ∧ x.1 ≠ Node.review_generation ∧
      x.1 ≠ Node.dimensional_scoring := by
  have hstep1 : Step Node.pdf_to_markdown sampleState
      Node.metadata_extraction invalidRun₁ :=
    Step.pdf_to_markdown sampleState (PdfOutcome.extracted ("sample paper text"))
  have hstep2 : Step Node.metadata_extraction invalidRun₁
      Node.graphEnd invalidRun₂ :=
    Step.metadata_extraction_fail invalidRun₁ (MetaOutcome.parsed invalidMeta)
      (by decide)
  have htr : ValidTrace [(Node.pdf_to_markdown, sampleState),
      (Node.metadata_extraction, invalidRun₁),
      (Node.graphEnd, invalidRun₂)] :=
    List.chain'_cons.mpr ⟨hstep1,
      List.chain'_cons.mpr ⟨hstep2, List.chain'_singleton _⟩⟩
  exact validation_failure_isolation _ sampleState htr rfl
    Node.graphEnd invalidRun₂ rfl (by decide)

/-- C10: the status of the formatted result is `complete` exactly when the
full-review text is non-empty (and `failed` exactly when it is empty),
independently of the error list, which is nevertheless reported verbatim. -/
theorem status_complete_iff (s : ReviewerState) (es : List String) :
    ((formatOutput s).status = "complete" ↔ s.full_review ≠ "") ∧
    ((formatOutput s).status = "failed" ↔ s.full_review = "") ∧
    (formatOutput { s with errors := es }).status = (formatOutput s).status ∧
    (formatOutput s).metadata.errors = s.errors := by
  by_cases h : s.full_review = "" <;>
    simp [formatOutput, h]

/-- Witness for C10: a concrete state with a non-empty review and a
non-empty error list still reports status `complete`. -/
theorem status_complete_iff_witness :
    (formatOutput completedWithErrors).status = "complete" ∧
    completedWithErrors.errors = ["late failure"] :=
  ⟨(status_complete_iff completedWithErrors []).1.mpr (by decide), rfl⟩
